import Mathlib

/-!
Shallow embedding of the VPREC-V3 volleyball scorekeeper's match state
engine, translated from the TypeScript source:
  * `src/components/Court.tsx` (Court, StatsOverlay, GameView sections)
  * `src/unnamed/part_000` (the App component: state store, history manager)
  * `src/components/SetupView.tsx` (jersey-number input sanitisation)
The React `useState` fields of App are gathered into `GameState` (the
snapshot type of `getCurrentState`) together with the two history stacks
into `AppState`; each event handler becomes a function on that state.
-/

/-- Type `TeamSide` from `types`: `'me' | 'op'`. -/
inductive TeamSide
  | me
  | op
deriving DecidableEq, Repr

/-- The side other than the given one (used to speak about the opponent
of an acting team in theorem statements). -/
def otherSide : TeamSide → TeamSide
  | TeamSide.me => TeamSide.op
  | TeamSide.op => TeamSide.me

/-- Type `ActionType` from `types`: Serve/Attack/Block/Dig/Set/Receive. -/
inductive ActionType
  | SERVE
  | ATTACK
  | BLOCK
  | DIG
  | SET
  | RECEIVE
deriving DecidableEq, Repr

/-- Type `ResultType` from `types`: Point/Error/Normal. -/
inductive ResultType
  | POINT
  | ERROR
  | NORMAL
deriving DecidableEq, Repr

/-- Type `ActionQuality` from `types`; only `NORMAL` is ever produced by the
GameView code (`quality: ActionQuality.NORMAL`). -/
inductive ActionQuality
  | NORMAL
deriving DecidableEq, Repr

/-- Rotation positions 1..6 (the keys of a `Lineup`). -/
inductive Position
  | P1
  | P2
  | P3
  | P4
  | P5
  | P6
deriving DecidableEq, Repr

/-- Union type `Position | 'L'`: a rotation position or the libero slot. -/
inductive PosOrL
  | pos (p : Position)
  | lib
deriving DecidableEq, Repr

/-- Type `PlayerRole` from `types`: `'S' | 'OH' | 'MB' | 'OP' | 'DS' | 'L' | '?'`. -/
inductive PlayerRole
  | S
  | OH
  | MB
  | OP
  | DS
  | L
  | UNKNOWN
deriving DecidableEq, Repr

/-- Type `Lineup`: mapping `{1: .., 2: .., 3: .., 4: .., 5: .., 6: ..}` of
rotation position to jersey-number string; field `posN` is key `N`. -/
structure Lineup where
  pos1 : String
  pos2 : String
  pos3 : String
  pos4 : String
  pos5 : String
  pos6 : String
deriving DecidableEq, Repr

/-- Lookup `lineup[pos]`. -/
def Lineup.get (l : Lineup) : Position → String
  | Position.P1 => l.pos1
  | Position.P2 => l.pos2
  | Position.P3 => l.pos3
  | Position.P4 => l.pos4
  | Position.P5 => l.pos5
  | Position.P6 => l.pos6

/-- Update `lineup[pos] = v` (the spread-update in `handleSubConfirm`). -/
def Lineup.set (l : Lineup) (p : Position) (v : String) : Lineup :=
  match p with
  | Position.P1 => { l with pos1 := v }
  | Position.P2 => { l with pos2 := v }
  | Position.P3 => { l with pos3 := v }
  | Position.P4 => { l with pos4 := v }
  | Position.P5 => { l with pos5 := v }
  | Position.P6 => { l with pos6 := v }

/-- Type `RoleMapping`: position 1..6 to `PlayerRole`. -/
structure RoleMapping where
  role1 : PlayerRole
  role2 : PlayerRole
  role3 : PlayerRole
  role4 : PlayerRole
  role5 : PlayerRole
  role6 : PlayerRole
deriving DecidableEq, Repr

/-- Type `TeamConfig` from `types`. -/
structure TeamConfig where
  matchName : String
  myName : String
  opName : String
deriving DecidableEq, Repr

/-- Percentage-space `Coordinate` from `types` (stored trajectory points). -/
structure Coordinate where
  x : Rat
  y : Rat
deriving DecidableEq, Repr

/-- Type `LogEntry` from `types`: one immutable ledger record.  Timestamps are
epoch milliseconds (`Nat`); scores are JS numbers, modelled as `Int`. -/
structure LogEntry where
  id : String
  timestamp : Nat
  setNumber : Nat
  myScore : Int
  opScore : Int
  playerNumber : String
  position : PosOrL
  action : ActionType
  quality : ActionQuality
  result : ResultType
  startCoord : Option Coordinate
  endCoord : Option Coordinate
  note : String
  servingTeam : TeamSide
deriving DecidableEq, Repr

/-- Type `GameState`: the snapshot assembled by App's `getCurrentState`. -/
structure GameState where
  currentSet : Nat
  mySetWins : Nat
  opSetWins : Nat
  myLineup : Lineup
  opLineup : Lineup
  myRoles : RoleMapping
  opRoles : RoleMapping
  myLibero : String
  opLibero : String
  myScore : Int
  opScore : Int
  servingTeam : TeamSide
  logs : List LogEntry
deriving DecidableEq, Repr

/-- App's full mutable state: the current `GameState` together with the
`history` ("past") and `future` stacks of the History Manager. -/
structure AppState where
  current : GameState
  history : List GameState
  future : List GameState
deriving DecidableEq, Repr

/-- The score of the given team in a snapshot (projection helper for
theorem statements). -/
def teamScore (g : GameState) : TeamSide → Int
  | TeamSide.me => g.myScore
  | TeamSide.op => g.opScore

/-- The lineup of the given team in a snapshot (projection helper for
theorem statements). -/
def teamLineup (g : GameState) : TeamSide → Lineup
  | TeamSide.me => g.myLineup
  | TeamSide.op => g.opLineup

/-- GameView's `getRotatedLineup`:
`{1: lineup[2], 6: lineup[1], 5: lineup[6], 4: lineup[5], 3: lineup[4], 2: lineup[3]}`. -/
def getRotatedLineup (lineup : Lineup) : Lineup :=
  { pos1 := lineup.pos2
    pos6 := lineup.pos1
    pos5 := lineup.pos6
    pos4 := lineup.pos5
    pos3 := lineup.pos4
    pos2 := lineup.pos3 }

/-! ## History Manager (App, `src/unnamed/part_000`) -/

/-- App's `pushHistory`: append the current snapshot to `history` and
clear `future`. -/
def pushHistory (s : AppState) : AppState :=
  { s with history := s.history ++ [s.current], future := [] }

/-- App's `handleUndo`: if `history` is empty do nothing; otherwise pop
its last element, prepend the current snapshot to `future`, and restore
the popped snapshot as current (all fields; the `|| getInitialRoles()`
fallback in the source only guards legacy snapshots whose role maps are
`undefined`, which the `GameState` type excludes). -/
def handleUndo (s : AppState) : AppState :=
  match s.history.getLast? with
  | none => s
  | some previous =>
      { current := previous
        history := s.history.dropLast
        future := s.current :: s.future }

/-- App's `handleRedo`: if `future` is empty do nothing; otherwise take
its head, append the current snapshot to `history`, and restore the head
as current. -/
def handleRedo (s : AppState) : AppState :=
  match s.future with
  | [] => s
  | next :: rest =>
      { current := next
        history := s.history ++ [s.current]
        future := rest }

/-! ## Committed actions (App's `handleGameAction`, `handleNextSet`) -/

/-- The `scoreUpdate` payload `{ myDelta, opDelta }`. -/
structure ScoreUpdate where
  myDelta : Int
  opDelta : Int
deriving DecidableEq, Repr

/-- The `lineupUpdate` payload `{ isMyTeam, newLineup, newLibero? }`. -/
structure LineupUpdate where
  isMyTeam : Bool
  newLineup : Lineup
  newLibero : Option String
deriving DecidableEq, Repr

/-- The body of App's `handleGameAction` after `pushHistory`: apply the
log append (stamping the current set number), the score deltas, the
lineup/libero update, and the serving-team change to a snapshot. -/
def applyGameAction (g : GameState) (newLog : Option LogEntry)
    (scoreUpdate : Option ScoreUpdate) (lineupUpdate : Option LineupUpdate)
    (newServingTeam : Option TeamSide) : GameState :=
  let g1 := match newLog with
    | none => g
    | some l => { g with logs := g.logs ++ [{ l with setNumber := g.currentSet }] }
  let g2 := match scoreUpdate with
    | none => g1
    | some u => { g1 with myScore := g1.myScore + u.myDelta,
                          opScore := g1.opScore + u.opDelta }
  let g3 := match lineupUpdate with
    | none => g2
    | some u =>
        if u.isMyTeam then
          { g2 with myLineup := u.newLineup,
                    myLibero := match u.newLibero with
                      | none => g2.myLibero
                      | some lb => lb }
        else
          { g2 with opLineup := u.newLineup,
                    opLibero := match u.newLibero with
                      | none => g2.opLibero
                      | some lb => lb }
  match newServingTeam with
  | none => g3
  | some t => { g3 with servingTeam := t }

/-- App's `handleGameAction`: `pushHistory` (snapshot + clear redo), then
apply the deltas to the current snapshot. -/
def handleGameAction (s : AppState) (newLog : Option LogEntry)
    (scoreUpdate : Option ScoreUpdate) (lineupUpdate : Option LineupUpdate)
    (newServingTeam : Option TeamSide) : AppState :=
  let s1 := pushHistory s
  { s1 with current := applyGameAction s1.current newLog scoreUpdate lineupUpdate newServingTeam }

/-- App's `handleNextSet`: `pushHistory`, credit a set win to whichever
team is strictly ahead (no one on a tie), and advance the set counter.
Scores are left untouched (the view switch back to setup is not part of
the match state). -/
def handleNextSet (s : AppState) : AppState :=
  let s1 := pushHistory s
  let g := s1.current
  let g1 :=
    if g.myScore > g.opScore then { g with mySetWins := g.mySetWins + 1 }
    else if g.opScore > g.myScore then { g with opSetWins := g.opSetWins + 1 }
    else g
  { s1 with current := { g1 with currentSet := g1.currentSet + 1 } }

/-! ## GameView commit logic (`src/components/Court.tsx`, GameView section) -/

/-- GameView's `handleRotation`: rotate one team's lineup via
`handleGameAction` (lineup-only delta, no log, no score, no serve change). -/
def handleRotation (s : AppState) (isMyTeam : Bool) : AppState :=
  let currentLineup := if isMyTeam then s.current.myLineup else s.current.opLineup
  handleGameAction s none none
    (some { isMyTeam := isMyTeam, newLineup := getRotatedLineup currentLineup, newLibero := none })
    none

/-- The source guard `!subNumber.trim()`: a string trims to empty exactly
when every character is whitespace. -/
def isBlank (s : String) : Bool :=
  s.toList.all Char.isWhitespace

/-- GameView's `handleSubConfirm` (with a target present): if the typed
jersey string is blank after trimming, only the modal closes (no state
change); otherwise replace the number at the targeted position or libero
slot via `handleGameAction` (no log, no score, no serve change). -/
def handleSubConfirm (s : AppState) (side : TeamSide) (pos : PosOrL)
    (subNumber : String) : AppState :=
  if isBlank subNumber then s
  else
    let isMyTeam := side = TeamSide.me
    let currentLineup := if isMyTeam then s.current.myLineup else s.current.opLineup
    match pos with
    | PosOrL.lib =>
        handleGameAction s none none
          (some { isMyTeam := isMyTeam, newLineup := currentLineup, newLibero := some subNumber })
          none
    | PosOrL.pos p =>
        handleGameAction s none none
          (some { isMyTeam := isMyTeam, newLineup := currentLineup.set p subNumber,
                  newLibero := none })
          none

/-- GameView's `handleScoreAdjust`: manual `+1`/`-1` on one team's score.
Rejects (plain `return`, before any history push) any delta that would
drive the score negative; on a positive delta applies the side-out rule
from the pre-commit serve state; always appends a `Manual Adjust` ledger
entry built with placeholder player/position/action fields. -/
def handleScoreAdjust (s : AppState) (isMyTeam : Bool)
    (delta : Int) (eid : String) (ts : Nat) : AppState :=
  let g := s.current
  let currentScore := if isMyTeam then g.myScore else g.opScore
  if currentScore + delta < 0 then s
  else
    let scoreUpdate : ScoreUpdate :=
      { myDelta := if isMyTeam then delta else 0
        opDelta := if isMyTeam then 0 else delta }
    let pointWinnerSide := if isMyTeam then TeamSide.me else TeamSide.op
    let newServingTeam : Option TeamSide :=
      if delta > 0 then
        if pointWinnerSide ≠ g.servingTeam then some pointWinnerSide else none
      else none
    let lineupUpdate : Option LineupUpdate :=
      if delta > 0 then
        if pointWinnerSide ≠ g.servingTeam then
          some { isMyTeam := pointWinnerSide = TeamSide.me
                 newLineup := getRotatedLineup
                   (if pointWinnerSide = TeamSide.me then g.myLineup else g.opLineup)
                 newLibero := none }
        else none
      else none
    let newLog : LogEntry :=
      { id := eid
        timestamp := ts
        setNumber := g.currentSet
        myScore := if isMyTeam then g.myScore + delta else g.myScore
        opScore := if isMyTeam then g.opScore else g.opScore + delta
        playerNumber := ""
        position := PosOrL.pos Position.P1
        action := ActionType.ATTACK
        quality := ActionQuality.NORMAL
        result := if delta > 0 then ResultType.POINT else ResultType.NORMAL
        startCoord := none
        endCoord := none
        note := "Manual Adjust " ++ (if delta > 0 then "+" else "") ++ toString delta
        servingTeam := match newServingTeam with
          | some t => t
          | none => g.servingTeam }
    handleGameAction s (some newLog) (some scoreUpdate) lineupUpdate newServingTeam

/-- The body of GameView's `handleResult` once a player and an action are
selected: the `(newLog, scoreUpdate, lineupUpdate, newServingTeam)`
quadruple handed to `onGameAction`.  `g` carries the props mirrored from
App (`initialMyLineup`, scores, `servingTeam`, `currentSet`, liberos). -/
def handleResultCore (g : GameState) (cfg : TeamConfig) (activeSide : TeamSide)
    (selectedPos : PosOrL) (selectedAction : ActionType)
    (startCoord endCoord : Option Coordinate) (eid : String) (ts : Nat)
    (result : ResultType) :
    LogEntry × Option ScoreUpdate × Option LineupUpdate × Option TeamSide :=
  let isMyTeam := activeSide = TeamSide.me
  let lineup := if isMyTeam then g.myLineup else g.opLineup
  let playerNumber :=
    match selectedPos with
    | PosOrL.lib => if isMyTeam then g.myLibero else g.opLibero
    | PosOrL.pos p => lineup.get p
  let deltas : Option ScoreUpdate × Option LineupUpdate × Option TeamSide :=
    match result with
    | ResultType.POINT =>
        let scoreUpdate : ScoreUpdate :=
          { myDelta := if isMyTeam then 1 else 0
            opDelta := if isMyTeam then 0 else 1 }
        let pointWinnerSide := if isMyTeam then TeamSide.me else TeamSide.op
        if pointWinnerSide ≠ g.servingTeam then
          (some scoreUpdate,
           some { isMyTeam := pointWinnerSide = TeamSide.me
                  newLineup := getRotatedLineup
                    (if pointWinnerSide = TeamSide.me then g.myLineup else g.opLineup)
                  newLibero := none },
           some pointWinnerSide)
        else (some scoreUpdate, none, none)
    | ResultType.ERROR =>
        let scoreUpdate : ScoreUpdate :=
          { myDelta := if isMyTeam then 0 else 1
            opDelta := if isMyTeam then 1 else 0 }
        let pointWinnerSide := if isMyTeam then TeamSide.op else TeamSide.me
        if pointWinnerSide ≠ g.servingTeam then
          (some scoreUpdate,
           some { isMyTeam := pointWinnerSide = TeamSide.me
                  newLineup := getRotatedLineup
                    (if pointWinnerSide = TeamSide.me then g.myLineup else g.opLineup)
                  newLibero := none },
           some pointWinnerSide)
        else (some scoreUpdate, none, none)
    | ResultType.NORMAL => (none, none, none)
  let scoreUpdate := deltas.1
  let nextMyScore := match scoreUpdate with
    | some u => g.myScore + u.myDelta
    | none => g.myScore
  let nextOpScore := match scoreUpdate with
    | some u => g.opScore + u.opDelta
    | none => g.opScore
  let newLog : LogEntry :=
    { id := eid
      timestamp := ts
      setNumber := g.currentSet
      myScore := nextMyScore
      opScore := nextOpScore
      playerNumber := playerNumber
      position := selectedPos
      action := selectedAction
      quality := ActionQuality.NORMAL
      result := result
      startCoord := startCoord
      endCoord := endCoord
      note := if isMyTeam then cfg.myName else cfg.opName
      servingTeam := match deltas.2.2 with
        | some t => t
        | none => g.servingTeam }
  (newLog, deltas.1, deltas.2.1, deltas.2.2)

/-- GameView's `handleResult` followed by App's `onGameAction`
(`handleGameAction`): the full effect of committing a pending action. -/
def handleResult (s : AppState) (cfg : TeamConfig) (activeSide : TeamSide)
    (selectedPos : PosOrL) (selectedAction : ActionType)
    (startCoord endCoord : Option Coordinate) (eid : String) (ts : Nat)
    (result : ResultType) : AppState :=
  let r := handleResultCore s.current cfg activeSide selectedPos selectedAction
    startCoord endCoord eid ts result
  handleGameAction s (some r.1) r.2.1 r.2.2.1 r.2.2.2

/-! ## Stats Aggregator (`src/components/Court.tsx`, StatsOverlay section) -/

/-- StatsOverlay's `getTeamLogs`: an entry is "my" team's exactly when its
`note` equals the configured my-team name; every other entry (whatever its
note says) is attributed to the opponent side. -/
def getTeamLogs (logs : List LogEntry) (cfg : TeamConfig) (side : TeamSide) :
    List LogEntry :=
  logs.filter fun l =>
    let logTeam := if l.note = cfg.myName then TeamSide.me else TeamSide.op
    logTeam = side

/-- StatsOverlay's `StatSummary`. -/
structure StatSummary where
  attackKills : Nat
  attackTotal : Nat
  blocks : Nat
  serveAces : Nat
  serveErrors : Nat
  digs : Nat
  totalPoints : Nat
deriving DecidableEq, Repr

/-- StatsOverlay's `calculateStats`: tally a filtered slice of the ledger. -/
def calculateStats (filteredLogs : List LogEntry) : StatSummary :=
  let counted := filteredLogs.foldl
    (fun (st : StatSummary) (l : LogEntry) =>
      let st := if l.action = ActionType.ATTACK then
          { st with attackTotal := st.attackTotal + 1,
                    attackKills := st.attackKills +
                      (if l.result = ResultType.POINT then 1 else 0) }
        else st
      let st := if l.action = ActionType.BLOCK ∧ l.result = ResultType.POINT then
          { st with blocks := st.blocks + 1 }
        else st
      let st := if l.action = ActionType.SERVE then
          { st with serveAces := st.serveAces +
                      (if l.result = ResultType.POINT then 1 else 0),
                    serveErrors := st.serveErrors +
                      (if l.result = ResultType.ERROR then 1 else 0) }
        else st
      if l.action = ActionType.DIG then { st with digs := st.digs + 1 } else st)
    { attackKills := 0, attackTotal := 0, blocks := 0, serveAces := 0,
      serveErrors := 0, digs := 0, totalPoints := 0 }
  { counted with totalPoints := counted.attackKills + counted.blocks + counted.serveAces }

/-! ## Setup jersey-number sanitisation (`src/components/SetupView.tsx`) -/

/-- SetupView's `sanitizeInput`: keep only the decimal digits of the typed
value, truncate to at most two characters, and return `none` (the caller
then drops the edit) when the non-empty result starts with `'0'`. -/
def sanitizeInput (value : String) : Option String :=
  let numericValue := value.toList.filter Char.isDigit
  let numericValue := if numericValue.length > 2 then numericValue.take 2 else numericValue
  if numericValue.length > 0 ∧ numericValue.head? = some '0' then none
  else some (String.mk numericValue)

/-- The state update performed by SetupView's `handlePlayerChange` /
`handleLiberoChange` on the one edited slot: a `null` from `sanitizeInput`
leaves the stored value untouched, otherwise the sanitised value is stored. -/
def applyJerseyEdit (prev : String) (value : String) : String :=
  match sanitizeInput value with
  | none => prev
  | some v => v

/-- The invariant the sanitiser maintains: the stored jersey string is
empty, or one to two decimal digits whose first digit is not `'0'`. -/
def goodJersey (s : String) : Bool :=
  match s.toList with
  | [] => true
  | c :: rest => (c :: rest).length ≤ 2 && (c :: rest).all Char.isDigit && c ≠ '0'

/-- The point winner of a committed Point/Error result by `activeSide`
(the acting team on Point, its opponent on Error), as computed inside
`handleResult` and `handleScoreAdjust`. -/
def pointWinner (activeSide : TeamSide) (result : ResultType) : TeamSide :=
  if result = ResultType.POINT then activeSide else otherSide activeSide

/-! ## Sample data for concrete evaluations -/

/-- A sample lineup for concrete evaluations. -/
def sampleLineup : Lineup := ⟨"1", "2", "3", "4", "5", "6"⟩

/-- A second sample lineup (opponent side). -/
def sampleLineupOp : Lineup := ⟨"11", "12", "13", "14", "15", "16"⟩

/-- A sample role mapping. -/
def sampleRoles : RoleMapping :=
  ⟨PlayerRole.S, PlayerRole.OH, PlayerRole.MB, PlayerRole.OP, PlayerRole.DS,
   PlayerRole.UNKNOWN⟩

/-- A sample team configuration. -/
def sampleCfg : TeamConfig := ⟨"match", "A", "B"⟩

/-- A sample mid-set snapshot with the opponent serving at 10:12. -/
def sampleServeOp : GameState :=
  ⟨1, 0, 0, sampleLineup, sampleLineupOp, sampleRoles, sampleRoles,
   "9", "8", 10, 12, TeamSide.op, []⟩

/-- The sample snapshot wrapped as a full app state with empty stacks. -/
def sampleApp : AppState := ⟨sampleServeOp, [], []⟩

/-- A sample manual-adjustment ledger entry (note not equal to either
configured team name). -/
def sampleManualEntry : LogEntry :=
  ⟨"x", 0, 1, 1, 0, "", PosOrL.pos Position.P1, ActionType.ATTACK,
   ActionQuality.NORMAL, ResultType.POINT, none, none, "Manual Adjust +1",
   TeamSide.me⟩

/-! ## Theorems -/

/-- Popping the last element recorded by `getLast?` and re-appending it
reconstructs the original list. -/
theorem dropLast_append_of_getLast_eq_some {α : Type} (l : List α) (x : α)
    (h : l.getLast? = some x) : l.dropLast ++ [x] = l := by
  have hne : l ≠ [] := by rintro rfl; simp at h
  rw [List.getLast?_eq_getLast l hne, Option.some_inj] at h
  rw [← h]
  exact List.dropLast_append_getLast hne

/-- C2: `getRotatedLineup` is exactly the permutation new[1]=old[2],
new[2]=old[3], new[3]=old[4], new[4]=old[5], new[5]=old[6], new[6]=old[1],
and applying it six times to any lineup returns the original lineup. -/
theorem rotation_is_cyclic_permutation (l : Lineup) :
    ((getRotatedLineup l).pos1 = l.pos2 ∧ (getRotatedLineup l).pos2 = l.pos3 ∧
     (getRotatedLineup l).pos3 = l.pos4 ∧ (getRotatedLineup l).pos4 = l.pos5 ∧
     (getRotatedLineup l).pos5 = l.pos6 ∧ (getRotatedLineup l).pos6 = l.pos1) ∧
    getRotatedLineup (getRotatedLineup (getRotatedLineup (getRotatedLineup
      (getRotatedLineup (getRotatedLineup l))))) = l := by
  cases l
  exact ⟨⟨rfl, rfl, rfl, rfl, rfl, rfl⟩, rfl⟩

/-- C3: when the past stack is non-empty, `handleUndo` restores its most
recent snapshot as the entire current `GameState`, pushes the pre-undo
state onto the future stack, and an immediately following `handleRedo`
restores the exact pre-undo `AppState` (round trip). -/
theorem undo_restores_and_redo_roundtrips (s : AppState) (previous : GameState)
    (h : s.history.getLast? = some previous) :
    (handleUndo s).current = previous ∧
    (handleUndo s).future = s.current :: s.future ∧
    (handleUndo s).history = s.history.dropLast ∧
    handleRedo (handleUndo s) = s := by
  have key := dropLast_append_of_getLast_eq_some _ _ h
  cases s with
  | mk current history future =>
      simp_all [handleUndo, handleRedo]

/-- C3 witness: a concrete two-snapshot history round-trips. -/
theorem undo_restores_and_redo_roundtrips_witness :
    ∃ (s : AppState) (previous : GameState),
      s.history.getLast? = some previous ∧
      ((handleUndo s).current = previous ∧
       (handleUndo s).future = s.current :: s.future ∧
       (handleUndo s).history = s.history.dropLast ∧
       handleRedo (handleUndo s) = s) := by
  let l : Lineup := ⟨"1", "2", "3", "4", "5", "6"⟩
  let r : RoleMapping := ⟨PlayerRole.S, PlayerRole.OH, PlayerRole.MB,
    PlayerRole.OP, PlayerRole.DS, PlayerRole.UNKNOWN⟩
  let g0 : GameState := ⟨1, 0, 0, l, l, r, r, "9", "8", 0, 0, TeamSide.me, []⟩
  let g1 : GameState := { g0 with myScore := 1 }
  let s : AppState := ⟨g1, [g0], []⟩
  exact ⟨s, g0, rfl, undo_restores_and_redo_roundtrips s g0 rfl⟩

/-- C4: every committed mutating action (generic `handleGameAction`
commit, player-action commit, accepted manual score adjustment,
substitution, rotation-only action, set advance) pushes the exact
pre-action snapshot onto the past stack and leaves the redo stack empty. -/
theorem commit_pushes_snapshot_and_clears_future (s : AppState)
    (newLog : Option LogEntry) (su : Option ScoreUpdate)
    (lu : Option LineupUpdate) (nst : Option TeamSide) (cfg : TeamConfig)
    (activeSide : TeamSide) (selectedPos : PosOrL) (selectedAction : ActionType)
    (sc ec : Option Coordinate) (eid : String) (ts : Nat) (result : ResultType)
    (isMyTeam : Bool) (delta : Int) (side : TeamSide) (pos : PosOrL)
    (subNumber : String)
    (haccept : 0 ≤ (if isMyTeam then s.current.myScore else s.current.opScore) + delta)
    (htrim : isBlank subNumber = false) :
    ((handleGameAction s newLog su lu nst).history = s.history ++ [s.current] ∧
     (handleGameAction s newLog su lu nst).future = []) ∧
    ((handleNextSet s).history = s.history ++ [s.current] ∧
     (handleNextSet s).future = []) ∧
    ((handleResult s cfg activeSide selectedPos selectedAction sc ec eid ts result).history
        = s.history ++ [s.current] ∧
     (handleResult s cfg activeSide selectedPos selectedAction sc ec eid ts result).future = []) ∧
    ((handleScoreAdjust s isMyTeam delta eid ts).history = s.history ++ [s.current] ∧
     (handleScoreAdjust s isMyTeam delta eid ts).future = []) ∧
    ((handleSubConfirm s side pos subNumber).history = s.history ++ [s.current] ∧
     (handleSubConfirm s side pos subNumber).future = []) ∧
    ((handleRotation s isMyTeam).history = s.history ++ [s.current] ∧
     (handleRotation s isMyTeam).future = []) := by
  refine ⟨⟨rfl, rfl⟩, ⟨rfl, rfl⟩, ⟨rfl, rfl⟩, ?_, ?_, ⟨rfl, rfl⟩⟩
  · simp only [handleScoreAdjust]
    rw [if_neg (not_lt.mpr haccept)]
    exact ⟨rfl, rfl⟩
  · simp only [handleSubConfirm]
    rw [htrim]
    cases pos <;> exact ⟨rfl, rfl⟩

/-- C4 witness: the snapshot-then-clear behaviour at a concrete state, an
accepted `-1` adjustment, and a non-blank substitution number. -/
theorem commit_pushes_snapshot_and_clears_future_witness :
    ∃ (s : AppState) (isMyTeam : Bool) (delta : Int) (subNumber : String),
      0 ≤ (if isMyTeam then s.current.myScore else s.current.opScore) + delta ∧
      isBlank subNumber = false ∧
      ((handleScoreAdjust s isMyTeam delta "x" 0).history = s.history ++ [s.current] ∧
       (handleScoreAdjust s isMyTeam delta "x" 0).future = []) ∧
      ((handleSubConfirm s TeamSide.me PosOrL.lib subNumber).history
          = s.history ++ [s.current] ∧
       (handleSubConfirm s TeamSide.me PosOrL.lib subNumber).future = []) := by
  let l : Lineup := ⟨"1", "2", "3", "4", "5", "6"⟩
  let r : RoleMapping := ⟨PlayerRole.S, PlayerRole.OH, PlayerRole.MB,
    PlayerRole.OP, PlayerRole.DS, PlayerRole.UNKNOWN⟩
  let g : GameState := ⟨1, 0, 0, l, l, r, r, "9", "8", 3, 2, TeamSide.me, []⟩
  let s : AppState := ⟨g, [], [g]⟩
  have h1 : (0 : Int) ≤ (if true then s.current.myScore else s.current.opScore) + (-1) := by
    decide
  have h2 : isBlank "7" = false := by decide
  have main := commit_pushes_snapshot_and_clears_future s none none none none
    ⟨"m", "A", "B"⟩ TeamSide.me PosOrL.lib ActionType.SERVE none none "x" 0
    ResultType.POINT true (-1) TeamSide.me PosOrL.lib "7" h1 h2
  exact ⟨s, true, -1, "7", h1, h2, main.2.2.2.1, main.2.2.2.2.1⟩

/-- C8: set advance snapshots the pre-action state into history, credits
a set win to exactly the team strictly ahead on points (no one on a tie),
advances the set counter by one, and leaves both scores untouched. -/
theorem next_set_credits_strict_leader (s : AppState) :
    (handleNextSet s).history = s.history ++ [s.current] ∧
    (handleNextSet s).future = [] ∧
    (handleNextSet s).current.mySetWins
      = s.current.mySetWins + (if s.current.myScore > s.current.opScore then 1 else 0) ∧
    (handleNextSet s).current.opSetWins
      = s.current.opSetWins + (if s.current.opScore > s.current.myScore then 1 else 0) ∧
    (handleNextSet s).current.currentSet = s.current.currentSet + 1 ∧
    (handleNextSet s).current.myScore = s.current.myScore ∧
    (handleNextSet s).current.opScore = s.current.opScore := by
  by_cases h1 : s.current.myScore > s.current.opScore
  · simp [handleNextSet, pushHistory, h1, lt_asymm h1]
  · by_cases h2 : s.current.opScore > s.current.myScore
    · simp [handleNextSet, pushHistory, h1, h2]
    · simp [handleNextSet, pushHistory, h1, h2]

/-- Whatever the score/lineup/serve deltas are, `applyGameAction` with a
log payload appends exactly that entry (stamped with the current set
number) at the end of the ledger. -/
theorem applyGameAction_logs (g : GameState) (l : LogEntry)
    (su : Option ScoreUpdate) (lu : Option LineupUpdate)
    (nst : Option TeamSide) :
    (applyGameAction g (some l) su lu nst).logs
      = g.logs ++ [{ l with setNumber := g.currentSet }] := by
  unfold applyGameAction
  cases su <;> cases lu <;> cases nst <;>
    simp only [] <;> (try split) <;> rfl

/-- C1: committing a pending action with result Point or Error gives the
point to the acting team (Point) or its opponent (Error): the winner's
score rises by exactly one and the loser's is unchanged; evaluated
against the pre-commit serve state, the winner becomes the serving team,
its lineup is rotated exactly when it was not already serving, and the
other team's lineup is never touched. -/
theorem point_error_scoring_and_sideout (s : AppState) (cfg : TeamConfig)
    (activeSide : TeamSide) (selectedPos : PosOrL) (selectedAction : ActionType)
    (sc ec : Option Coordinate) (eid : String) (ts : Nat) (result : ResultType)
    (hres : result = ResultType.POINT ∨ result = ResultType.ERROR) :
    teamScore (handleResult s cfg activeSide selectedPos selectedAction sc ec eid ts result).current
        (pointWinner activeSide result)
      = teamScore s.current (pointWinner activeSide result) + 1 ∧
    teamScore (handleResult s cfg activeSide selectedPos selectedAction sc ec eid ts result).current
        (otherSide (pointWinner activeSide result))
      = teamScore s.current (otherSide (pointWinner activeSide result)) ∧
    (handleResult s cfg activeSide selectedPos selectedAction sc ec eid ts result).current.servingTeam
      = pointWinner activeSide result ∧
    teamLineup (handleResult s cfg activeSide selectedPos selectedAction sc ec eid ts result).current
        (pointWinner activeSide result)
      = (if pointWinner activeSide result = s.current.servingTeam then
          teamLineup s.current (pointWinner activeSide result)
        else getRotatedLineup (teamLineup s.current (pointWinner activeSide result))) ∧
    teamLineup (handleResult s cfg activeSide selectedPos selectedAction sc ec eid ts result).current
        (otherSide (pointWinner activeSide result))
      = teamLineup s.current (otherSide (pointWinner activeSide result)) := by
  rcases hres with h | h <;> subst h <;>
    cases activeSide <;> cases hserve : s.current.servingTeam <;>
      simp [handleResult, handleResultCore, handleGameAction, applyGameAction,
        pushHistory, teamScore, teamLineup, otherSide, pointWinner, hserve]

/-- C1 witness: with the opponent serving at 10:12, a Point by my team
raises my score to 11, makes my team the serving team, and rotates my
lineup once while leaving the opponent's untouched. -/
theorem point_error_scoring_and_sideout_witness :
    teamScore (handleResult sampleApp sampleCfg TeamSide.me (PosOrL.pos Position.P1)
        ActionType.ATTACK none none "x" 0 ResultType.POINT).current
        (pointWinner TeamSide.me ResultType.POINT)
      = teamScore sampleApp.current (pointWinner TeamSide.me ResultType.POINT) + 1 ∧
    teamScore (handleResult sampleApp sampleCfg TeamSide.me (PosOrL.pos Position.P1)
        ActionType.ATTACK none none "x" 0 ResultType.POINT).current
        (otherSide (pointWinner TeamSide.me ResultType.POINT))
      = teamScore sampleApp.current (otherSide (pointWinner TeamSide.me ResultType.POINT)) ∧
    (handleResult sampleApp sampleCfg TeamSide.me (PosOrL.pos Position.P1)
        ActionType.ATTACK none none "x" 0 ResultType.POINT).current.servingTeam
      = pointWinner TeamSide.me ResultType.POINT ∧
    teamLineup (handleResult sampleApp sampleCfg TeamSide.me (PosOrL.pos Position.P1)
        ActionType.ATTACK none none "x" 0 ResultType.POINT).current
        (pointWinner TeamSide.me ResultType.POINT)
      = (if pointWinner TeamSide.me ResultType.POINT = sampleApp.current.servingTeam then
          teamLineup sampleApp.current (pointWinner TeamSide.me ResultType.POINT)
        else getRotatedLineup (teamLineup sampleApp.current (pointWinner TeamSide.me ResultType.POINT))) ∧
    teamLineup (handleResult sampleApp sampleCfg TeamSide.me (PosOrL.pos Position.P1)
        ActionType.ATTACK none none "x" 0 ResultType.POINT).current
        (otherSide (pointWinner TeamSide.me ResultType.POINT))
      = teamLineup sampleApp.current (otherSide (pointWinner TeamSide.me ResultType.POINT)) :=
  point_error_scoring_and_sideout sampleApp sampleCfg TeamSide.me (PosOrL.pos Position.P1)
    ActionType.ATTACK none none "x" 0 ResultType.POINT (Or.inl rfl)

/-- C5: a manual `-1` on a team standing at 0 is a complete no-op (no
history push, no ledger entry, no field change), and an accepted manual
`-1` never rotates either lineup and never changes the serving team. -/
theorem manual_decrement_rejected_at_zero_and_never_rotates (s : AppState)
    (isMyTeam : Bool) (eid : String) (ts : Nat) :
    ((if isMyTeam then s.current.myScore else s.current.opScore) = 0 →
      handleScoreAdjust s isMyTeam (-1) eid ts = s) ∧
    (1 ≤ (if isMyTeam then s.current.myScore else s.current.opScore) →
      ((handleScoreAdjust s isMyTeam (-1) eid ts).current.myLineup = s.current.myLineup ∧
       (handleScoreAdjust s isMyTeam (-1) eid ts).current.opLineup = s.current.opLineup ∧
       (handleScoreAdjust s isMyTeam (-1) eid ts).current.servingTeam
         = s.current.servingTeam)) := by
  constructor
  · intro h0
    simp only [handleScoreAdjust]
    rw [if_pos]
    rw [h0]
    decide
  · intro h1
    have hng : ¬ ((if isMyTeam then s.current.myScore else s.current.opScore) + (-1) < 0) := by
      omega
    simp only [handleScoreAdjust]
    rw [if_neg hng]
    exact ⟨rfl, rfl, rfl⟩

/-- C5 witness: at 0:5 a manual `-1` on my team is the identity, and at
3:2 an accepted manual `-1` on my team keeps lineups and serve. -/
theorem manual_decrement_witness :
    handleScoreAdjust ⟨{ sampleServeOp with myScore := 0, opScore := 5 }, [], []⟩
        true (-1) "x" 0 = ⟨{ sampleServeOp with myScore := 0, opScore := 5 }, [], []⟩ ∧
    ((handleScoreAdjust ⟨{ sampleServeOp with myScore := 3, opScore := 2 }, [], []⟩
        true (-1) "x" 0).current.myLineup
       = ({ sampleServeOp with myScore := 3, opScore := 2 } : GameState).myLineup ∧
     (handleScoreAdjust ⟨{ sampleServeOp with myScore := 3, opScore := 2 }, [], []⟩
        true (-1) "x" 0).current.opLineup
       = ({ sampleServeOp with myScore := 3, opScore := 2 } : GameState).opLineup ∧
     (handleScoreAdjust ⟨{ sampleServeOp with myScore := 3, opScore := 2 }, [], []⟩
        true (-1) "x" 0).current.servingTeam
       = ({ sampleServeOp with myScore := 3, opScore := 2 } : GameState).servingTeam) :=
  ⟨(manual_decrement_rejected_at_zero_and_never_rotates
      ⟨{ sampleServeOp with myScore := 0, opScore := 5 }, [], []⟩ true "x" 0).1 rfl,
   (manual_decrement_rejected_at_zero_and_never_rotates
      ⟨{ sampleServeOp with myScore := 3, opScore := 2 }, [], []⟩ true "x" 0).2 (by decide)⟩

/-- C6 counterexample: the single ledger entry created by an accepted
manual `+1` carries the placeholder action `ATTACK` and position 1, and
the stats aggregator consequently counts it as an attack, an attack kill
and a scored point — so it does carry an action identity. -/
theorem manual_entry_action_identity_counterexample :
    ((handleScoreAdjust sampleApp true 1 "x" 0).current.logs.map (fun e => e.action))
      = [ActionType.ATTACK] ∧
    ((handleScoreAdjust sampleApp true 1 "x" 0).current.logs.map
        (fun e => (e.position, (calculateStats [e]).attackTotal,
                   (calculateStats [e]).attackKills, (calculateStats [e]).totalPoints)))
      = [(PosOrL.pos Position.P1, 1, 1, 1)] := by
  constructor <;> rfl

/-- C6 (amended): every accepted manual `+1`/`-1` appends exactly one
ledger entry, whose note marks it as manual and which carries no player
number and no trajectory coordinates, but whose action field is the
placeholder `ATTACK` at position 1 (Point on `+1`, Normal on `-1`). -/
theorem manual_adjust_ledger_entry (s : AppState) (isMyTeam : Bool)
    (delta : Int) (eid : String) (ts : Nat)
    (hdelta : delta = 1 ∨ delta = -1)
    (haccept : 0 ≤ (if isMyTeam then s.current.myScore else s.current.opScore) + delta) :
    ∃ e : LogEntry,
      (handleScoreAdjust s isMyTeam delta eid ts).current.logs
        = s.current.logs ++ [e] ∧
      e.note = (if delta = 1 then "Manual Adjust +1" else "Manual Adjust -1") ∧
      e.playerNumber = "" ∧
      e.startCoord = none ∧
      e.endCoord = none ∧
      e.action = ActionType.ATTACK ∧
      e.position = PosOrL.pos Position.P1 ∧
      e.result = (if delta = 1 then ResultType.POINT else ResultType.NORMAL) := by
  have hng : ¬ ((if isMyTeam then s.current.myScore else s.current.opScore) + delta < 0) :=
    not_lt.mpr haccept
  rcases hdelta with h | h <;> subst h <;>
    (simp only [handleScoreAdjust]
     rw [if_neg hng]
     exact ⟨_, applyGameAction_logs _ _ _ _ _, rfl, rfl, rfl, rfl, rfl, rfl, rfl⟩)

/-- C6 witness: the amended statement evaluated for a `+1` on my team in
the sample state. -/
theorem manual_adjust_ledger_entry_witness :
    ∃ e : LogEntry,
      (handleScoreAdjust sampleApp true 1 "x" 0).current.logs
        = sampleApp.current.logs ++ [e] ∧
      e.note = (if (1 : Int) = 1 then "Manual Adjust +1" else "Manual Adjust -1") ∧
      e.playerNumber = "" ∧
      e.startCoord = none ∧
      e.endCoord = none ∧
      e.action = ActionType.ATTACK ∧
      e.position = PosOrL.pos Position.P1 ∧
      e.result = (if (1 : Int) = 1 then ResultType.POINT else ResultType.NORMAL) :=
  manual_adjust_ledger_entry sampleApp true 1 "x" 0 (Or.inl rfl) (by decide)

/-- C7 counterexample: with team names "A"/"B", an entry whose note is
"Manual Adjust +1" is counted toward the opponent team by `getTeamLogs`
even though its note does not equal the opponent's display name. -/
theorem team_filter_counterexample :
    getTeamLogs [sampleManualEntry] sampleCfg TeamSide.op = [sampleManualEntry] ∧
    sampleManualEntry.note ≠ sampleCfg.opName := by
  constructor
  · rfl
  · decide

/-- C7 (amended): `getTeamLogs` attributes an entry to my team exactly
when its note equals my team's display name, and to the opponent exactly
when it does not — the opponent's own display name is never consulted;
player-action commits do set the note to the acting team's name. -/
theorem team_filter_matches_my_name_only (logs : List LogEntry)
    (cfg : TeamConfig) (l : LogEntry) :
    (l ∈ getTeamLogs logs cfg TeamSide.me ↔ (l ∈ logs ∧ l.note = cfg.myName)) ∧
    (l ∈ getTeamLogs logs cfg TeamSide.op ↔ (l ∈ logs ∧ l.note ≠ cfg.myName)) ∧
    ∀ (g : GameState) (activeSide : TeamSide) (selectedPos : PosOrL)
      (selectedAction : ActionType) (sc ec : Option Coordinate) (eid : String)
      (ts : Nat) (result : ResultType),
      (handleResultCore g cfg activeSide selectedPos selectedAction sc ec eid ts
          result).1.note
        = (if activeSide = TeamSide.me then cfg.myName else cfg.opName) := by
  refine ⟨?_, ?_, ?_⟩
  · by_cases h : l.note = cfg.myName <;>
      simp [getTeamLogs, List.mem_filter, h]
  · by_cases h : l.note = cfg.myName <;>
      simp [getTeamLogs, List.mem_filter, h]
  · intro g activeSide selectedPos selectedAction sc ec eid ts result
    rfl

/-- C9 counterexample: with the opponent serving, a Point committed by my
team produces a ledger entry whose `servingTeam` field is "me" — the
post-side-out serving team, not the team that was serving before the
commit. -/
theorem log_serving_team_counterexample :
    (handleResultCore sampleServeOp sampleCfg TeamSide.me (PosOrL.pos Position.P1)
        ActionType.ATTACK none none "x" 0 ResultType.POINT).1.servingTeam
      = TeamSide.me ∧
    sampleServeOp.servingTeam = TeamSide.op := ⟨rfl, rfl⟩

/-- C9 (amended): the ledger entry built by a committed player action is
appended as-is to the ledger and records in `servingTeam` the serving
team *after* the side-out update: the point winner on Point/Error, and
the unchanged pre-commit serving team on Normal. -/
theorem log_records_post_sideout_serving (s : AppState) (cfg : TeamConfig)
    (activeSide : TeamSide) (selectedPos : PosOrL) (selectedAction : ActionType)
    (sc ec : Option Coordinate) (eid : String) (ts : Nat) (result : ResultType) :
    (handleResult s cfg activeSide selectedPos selectedAction sc ec eid ts
        result).current.logs
      = s.current.logs ++
        [(handleResultCore s.current cfg activeSide selectedPos selectedAction
            sc ec eid ts result).1] ∧
    (handleResultCore s.current cfg activeSide selectedPos selectedAction
        sc ec eid ts result).1.servingTeam
      = (if result = ResultType.NORMAL then s.current.servingTeam
         else pointWinner activeSide result) := by
  constructor
  · exact applyGameAction_logs s.current _ _ _ _
  · cases result <;> cases activeSide <;> cases hserve : s.current.servingTeam <;>
      simp [handleResultCore, pointWinner, otherSide, hserve]

/-- Truncating to at most two characters does not change the head. -/
theorem head?_truncTwo (l : List Char) :
    (if l.length > 2 then l.take 2 else l).head? = l.head? := by
  by_cases hl : l.length > 2
  · rw [if_pos hl]; cases l <;> rfl
  · rw [if_neg hl]

/-- A sanitised value satisfies the jersey invariant. -/
theorem sanitizeInput_sound (value v : String)
    (h : sanitizeInput value = some v) : goodJersey v = true := by
  simp only [sanitizeInput] at h
  generalize hF : value.toList.filter Char.isDigit = n1 at h
  generalize hT : (if n1.length > 2 then n1.take 2 else n1) = n2 at h
  have hdig1 : ∀ c ∈ n1, Char.isDigit c := by
    rw [← hF]; exact fun c hc => List.of_mem_filter hc
  have hdig : ∀ c ∈ n2, Char.isDigit c := by
    rw [← hT]
    intro c hc
    by_cases hl : n1.length > 2
    · rw [if_pos hl] at hc; exact hdig1 c (List.take_subset _ _ hc)
    · rw [if_neg hl] at hc; exact hdig1 c hc
  have hlen : n2.length ≤ 2 := by
    rw [← hT]
    by_cases hl : n1.length > 2
    · rw [if_pos hl]; simp [List.length_take]
    · rw [if_neg hl]; omega
  by_cases hc : n2.length > 0 ∧ n2.head? = some '0'
  · rw [if_pos hc] at h; cases h
  · rw [if_neg hc] at h
    have hv := Option.some.inj h
    subst hv
    cases n2 with
    | nil => rfl
    | cons c t =>
        have hc0 : c ≠ '0' := by
          intro hceq
          exact hc ⟨by simp, by simp [hceq]⟩
        show (decide ((c :: t).length ≤ 2) && (c :: t).all Char.isDigit &&
              decide (c ≠ '0')) = true
        rw [Bool.and_eq_true, Bool.and_eq_true, List.all_eq_true]
        exact ⟨⟨decide_eq_true hlen, fun x hx => hdig x hx⟩, decide_eq_true hc0⟩

/-- Helper: `sanitizeInput` rejects exactly the inputs whose digit-filtered value
starts with `'0'`. -/
theorem sanitizeInput_none_iff (value : String) :
    sanitizeInput value = none ↔
      (value.toList.filter Char.isDigit).head? = some '0' := by
  simp only [sanitizeInput]
  generalize value.toList.filter Char.isDigit = n1
  simp only [head?_truncTwo]
  constructor
  · intro h
    by_cases hc : ((if n1.length > 2 then n1.take 2 else n1).length > 0 ∧
        n1.head? = some '0')
    · exact hc.2
    · rw [if_neg hc] at h; cases h
  · intro h
    have hpos : (if n1.length > 2 then n1.take 2 else n1).length > 0 := by
      cases n1 with
      | nil => simp at h
      | cons c t =>
          by_cases hl : (c :: t).length > 2
          · rw [if_pos hl]; simp [List.length_take]
          · rw [if_neg hl]; simp
    rw [if_pos ⟨hpos, h⟩]

/-- C10: a setup-screen jersey edit keeps the stored string empty or one
to two decimal digits not starting with `'0'`, and an edit whose
digit-filtered value starts with `'0'` is dropped entirely, leaving the
previously stored value unchanged. -/
theorem jersey_edit_invariant (prev value : String) :
    (goodJersey prev = true → goodJersey (applyJerseyEdit prev value) = true) ∧
    ((value.toList.filter Char.isDigit).head? = some '0' →
      applyJerseyEdit prev value = prev) := by
  constructor
  · intro hp
    unfold applyJerseyEdit
    cases hs : sanitizeInput value with
    | none => exact hp
    | some v => exact sanitizeInput_sound value v hs
  · intro h
    unfold applyJerseyEdit
    rw [(sanitizeInput_none_iff value).mpr h]

/-- C10 witness: editing "07" onto a stored "5" is dropped; editing
"a1b2c3" onto "5" stores "12". -/
theorem jersey_edit_invariant_witness :
    goodJersey (applyJerseyEdit "5" "07") = true ∧ applyJerseyEdit "5" "07" = "5" :=
  ⟨(jersey_edit_invariant "5" "07").1 (by decide),
   (jersey_edit_invariant "5" "07").2 (by decide)⟩
